import Mathlib

/-!
Verification of the SPA cache-fix middleware (`static.ts`).

The repository contains a single Express middleware, `serveStatic`, which

1. resolves the build directory as `path.resolve(__dirname, "public")` and
   throws if it does not exist,
2. installs `express.static(distPath, { maxAge: "1y", immutable: true,
   index: false })`, and
3. installs a catch-all SPA fallback on the route pattern `/{*path}` that
   sets three no-cache headers and then sends `index.html` via
   `res.sendFile`.

The shallow embedding below models the build directory as an association
list from file names (relative to the directory) to byte lists, requests as
records of method, path, request headers and body, and responses as records
of (cache-policy) headers, status, body and an optional file-system error
surfaced by `res.sendFile`.  The behaviour of the external collaborators
(`express.static`, the `/{*path}` route pattern, `res.sendFile`) is modelled
at the granularity the middleware observes: `express.static` serves only
GET/HEAD requests, never resolves a directory request (that is what
`index: false` disables), and otherwise serves the file named by the request
path with the cache-control value produced by `maxAge: "1y"` plus
`immutable: true`; `Option.none` models the handler calling `next()`.
Conditional requests, range requests and URL decoding are outside the scope
of the specified policy and are not modelled.
-/

set_option autoImplicit false

namespace SpaCacheFix

/-- Bytes of a file, modelled as a list of byte values. -/
abbrev Bytes := List Nat

/-- Contents of the build output directory: file name (relative to the
directory) paired with the bytes of the file. -/
abbrev DistFiles := List (String × Bytes)

/-- First-match lookup of a file name in the directory contents. -/
def lookupFile (files : DistFiles) (name : String) : Option Bytes :=
  match files with
  | [] => none
  | (n, b) :: rest => if n = name then some b else lookupFile rest name

/-- An HTTP request as the middleware observes it.  The two handlers only
ever inspect the method and the path; request headers and body are carried
so that independence from them is a provable statement. -/
structure Request where
  method : String
  path : String
  reqHeaders : List (String × String) := []
  reqBody : Bytes := []
  deriving DecidableEq

/-- An HTTP response, restricted to the fields the middleware controls: the
cache-policy headers it sets, the status, the body, and an optional
file-system failure surfaced by `res.sendFile`. -/
structure Response where
  headers : List (String × String) := []
  status : Nat := 200
  body : Bytes := []
  sendError : Option String := none
  deriving DecidableEq

/-- The method strings the static handler cares about. -/
def getMethod : String := "GET"

/-- HEAD method string. -/
def headMethod : String := "HEAD"

/-- Name of the entry document, `index.html`. -/
def entryDocument : String := "index.html"

/-- Name of the build directory segment, `"public"` in the source. -/
def publicSegment : String := "public"

/-- Models `path.resolve(base, seg)` for an absolute `base` (no trailing
slash) and a relative `seg`: join with a single slash. -/
def pathResolve (base seg : String) : String := base ++ "/" ++ seg

/-- A request path denotes a directory when it ends in a slash (in
particular the root path `/`). -/
def isDirRequest (p : String) : Bool := p.data.getLast? = some '/'

/-- The file name a rooted request path denotes, relative to the served
directory: the path with its leading slash removed. -/
def relFileName (p : String) : String := { data := p.data.drop 1 }

/-- A well-formed HTTP request path starts with a slash. -/
def isRootedPath (p : String) : Bool := p.data.head? = some '/'

/-- File resolution of `express.static` with `index: false`: a directory
request (path ending in a slash, in particular `/`) is never resolved to a
file — that is exactly what `index: false` switches off — and any other path
names the file reached from the served directory. -/
def resolveFile (files : DistFiles) (p : String) : Option Bytes :=
  if isDirRequest p then none
  else lookupFile files (relFileName p)

/-- `Cache-Control` value produced by `maxAge: "1y"` with
`immutable: true`: one year in seconds, immutable. -/
def immutableCacheControl : String := "max-age=31536000, immutable"

/-- Header name `Cache-Control`. -/
def cacheControlName : String := "Cache-Control"

/-- The `express.static(distPath, { maxAge: "1y", immutable: true,
index: false })` handler: it serves only GET and HEAD requests; if the
request path resolves to a file it serves the bytes of that file with the
one-year immutable cache header, otherwise it falls through (`none` models
the handler calling `next()`). -/
def expressStatic (files : DistFiles) (req : Request) : Option Response :=
  if req.method = getMethod ∨ req.method = headMethod then
    match resolveFile files req.path with
    | some bytes =>
        some { headers := [(cacheControlName, immutableCacheControl)],
               status := 200, body := bytes }
    | none => none
  else none

/-- Models `res.setHeader(name, value)`: sets the header, replacing any
previous value for the same name. -/
def setHeader (r : Response) (name value : String) : Response :=
  { r with headers := r.headers.filter (fun q => q.1 ≠ name) ++ [(name, value)] }

/-- Message prefix of the file-not-found failure of `res.sendFile`. -/
def enoentPrefix : String := "ENOENT: no such file "

/-- Models `res.sendFile`: on an existing file it sends its bytes with
status 200; on a missing file it surfaces a file-not-found failure.  In
both cases the headers already set on the response are kept. -/
def sendFile (files : DistFiles) (name : String) (r : Response) : Response :=
  match lookupFile files name with
  | some bytes => { r with status := 200, body := bytes }
  | none => { r with status := 404, sendError := some (enoentPrefix ++ name) }

/-- Value of the no-cache `Cache-Control` header set by the fallback. -/
def noCacheValue : String := "no-cache, no-store, must-revalidate"

/-- Header name `Pragma`. -/
def pragmaName : String := "Pragma"

/-- Value of the `Pragma` header set by the fallback. -/
def pragmaValue : String := "no-cache"

/-- Header name `Expires`. -/
def expiresName : String := "Expires"

/-- Value of the `Expires` header set by the fallback. -/
def expiresValue : String := "0"

/-- The SPA fallback handler of `static.ts`: it ignores the request, sets
the three no-cache headers in source order, and then sends the entry
document with `res.sendFile`. -/
def spaFallbackHandler (files : DistFiles) (_req : Request) : Response :=
  let r1 := setHeader {} cacheControlName noCacheValue
  let r2 := setHeader r1 pragmaName pragmaValue
  let r3 := setHeader r2 expiresName expiresValue
  sendFile files entryDocument r3

/-- The three no-cache headers of the fallback response, in the order the
source sets them. -/
def noCacheHeaders : List (String × String) :=
  [(cacheControlName, noCacheValue), (pragmaName, pragmaValue),
   (expiresName, expiresValue)]

/-- The handlers `serveStatic` installs on the Express app: the static
asset handler and the SPA fallback, each remembering the directory it
serves from (the fallback also remembers its route pattern). -/
inductive Handler where
  | staticAssets (distPath : String)
  | spaFallback (pattern : String) (distPath : String)
  deriving DecidableEq

/-- The directory a handler serves files from. -/
def Handler.servedDir : Handler → String
  | .staticAssets d => d
  | .spaFallback _ d => d

/-- The catch-all route pattern string used by the fallback. -/
def catchAllPattern : String := "/\x7b*path\x7d"

/-- Models Express 5 route matching for the catch-all pattern: the
optional wildcard matches every rooted path, including the bare root `/`.
Any other pattern is not used by this middleware. -/
def routeMatches (pattern p : String) : Bool :=
  if pattern = catchAllPattern then isRootedPath p else false

/-- Runs one installed handler on a request against the contents of the
build directory; `none` models the handler passing the request on. -/
def runHandler (files : DistFiles) (h : Handler) (req : Request) :
    Option Response :=
  match h with
  | .staticAssets _ => expressStatic files req
  | .spaFallback pattern _ =>
      if routeMatches pattern req.path then some (spaFallbackHandler files req)
      else none

/-- Runs an Express pipeline: handlers are tried in installation order and
the first one that produces a response wins. -/
def runApp (files : DistFiles) (hs : List Handler) (req : Request) :
    Option Response :=
  match hs with
  | [] => none
  | h :: rest =>
      match runHandler files h req with
      | some r => some r
      | none => runApp files rest req

/-- First part of the thrown error message. -/
def buildDirMsgPre : String := "Could not find the build directory: "

/-- Last part of the thrown error message. -/
def buildDirMsgPost : String := ", make sure to build the client first"

/-- The error message thrown when the build directory is missing, exactly
as the source formats it. -/
def buildDirErrorMsg (distPath : String) : String :=
  buildDirMsgPre ++ distPath ++ buildDirMsgPost

/-- The `serveStatic` function of `static.ts`.  `dirname` models the
ambient `__dirname` of the module, `existsSync` models `fs.existsSync`, and
`app` is the list of handlers already installed on the Express app.  If the
resolved build directory is missing it throws (the `Except.error` carries
the thrown message) before installing anything; otherwise it appends the
static asset handler and then the SPA fallback. -/
def serveStatic (dirname : String) (existsSync : String → Bool)
    (app : List Handler) : Except String (List Handler) :=
  let distPath := pathResolve dirname publicSegment
  if !existsSync distPath then
    .error (buildDirErrorMsg distPath)
  else
    .ok (app ++ [Handler.staticAssets distPath,
                 Handler.spaFallback catchAllPattern distPath])

/-- The two handlers installed by `serveStatic`, run in order: the asset
handler first, then the fallback.  This is the per-request behaviour of the
middleware on any rooted path (the catch-all matches every rooted path, so
the fallback answers whenever the asset handler falls through). -/
def handleRequest (files : DistFiles) (req : Request) : Response :=
  match expressStatic files req with
  | some r => r
  | none => spaFallbackHandler files req

/-- Sequential handling of a batch of requests.  The source threads no
state from one request to the next — both handlers only read `files` —
so a batch is handled as the independent handling of each request. -/
def handleAll (files : DistFiles) (reqs : List Request) : List Response :=
  reqs.map (handleRequest files)

/-- The two handlers `serveStatic` installs, in installation order, for a
given module directory. -/
def installedHandlers (dirname : String) : List Handler :=
  [Handler.staticAssets (pathResolve dirname publicSegment),
   Handler.spaFallback catchAllPattern (pathResolve dirname publicSegment)]

/-- Name of the concrete hashed asset used by witnesses. -/
def appAssetName : String := "app.js"

/-- A small concrete build directory used by witnesses and
counterexamples: one hashed asset and the entry document. -/
def demoFiles : DistFiles :=
  [(appAssetName, [1, 2]), (entryDocument, [10, 11])]

/-- A concrete build directory with no entry document. -/
def noEntryFiles : DistFiles := [(appAssetName, [1, 2])]

/-- Concrete request path of the hashed asset. -/
def appAssetPath : String := "/app.js"

/-- Concrete request path naming the entry document explicitly. -/
def entryPath : String := "/index.html"

/-- The root request path. -/
def rootPath : String := "/"

/-- A concrete SPA route with no matching file. -/
def dashboardPath : String := "/dashboard"

/-- A concrete request path matching nothing in `noEntryFiles`. -/
def missingPath : String := "/nope"

/-- A method that is neither GET nor HEAD. -/
def postMethod : String := "POST"

/-- Concrete module directory used by witnesses. -/
def srvDirname : String := "/srv"

/-- An `fs.existsSync` under which no path exists. -/
def neverExists : String → Bool := fun _ => false

/-- An `fs.existsSync` under which every path exists. -/
def alwaysExists : String → Bool := fun _ => true

/-- Concrete GET request for the hashed asset. -/
def reqGetAsset : Request := { method := getMethod, path := appAssetPath }

/-- Concrete POST request for the hashed asset. -/
def reqPostAsset : Request := { method := postMethod, path := appAssetPath }

/-- Concrete GET request naming the entry document explicitly. -/
def reqGetEntry : Request := { method := getMethod, path := entryPath }

/-- Concrete GET request for the root path. -/
def reqGetRoot : Request := { method := getMethod, path := rootPath }

/-- Concrete GET request for an SPA route. -/
def reqGetDashboard : Request := { method := getMethod, path := dashboardPath }

/-- The same SPA-route GET request with different request headers and
body. -/
def reqGetDashboardAlt : Request :=
  { method := getMethod, path := dashboardPath,
    reqHeaders := [(pragmaName, pragmaValue)], reqBody := [7] }

/-- Concrete GET request whose path matches nothing in `noEntryFiles`. -/
def reqGetMissing : Request := { method := getMethod, path := missingPath }

/-- The fallback handler is the three header assignments followed by
`res.sendFile` of the entry document: its response is `sendFile` applied to
a response that already carries exactly the three no-cache headers. -/
theorem spaFallbackHandler_eq (files : DistFiles) (req : Request) :
    spaFallbackHandler files req =
      sendFile files entryDocument
        { headers := noCacheHeaders, status := 200, body := [],
          sendError := none } := by
  have h3 : setHeader (setHeader (setHeader {} cacheControlName noCacheValue)
      pragmaName pragmaValue) expiresName expiresValue =
      { headers := noCacheHeaders, status := 200, body := [],
        sendError := none } := by decide
  show sendFile files entryDocument
      (setHeader (setHeader (setHeader {} cacheControlName noCacheValue)
        pragmaName pragmaValue) expiresName expiresValue) = _
  rw [h3]

/-- When the request path resolves to no file, the asset handler passes the
request on. -/
theorem expressStatic_none_of_unresolved (files : DistFiles) (req : Request)
    (hres : resolveFile files req.path = none) :
    expressStatic files req = none := by
  unfold expressStatic
  split <;> simp [hres]

/-- C1: for every request served by the static asset handler — a GET or
HEAD request whose path resolves to an existing non-entry-document file
under the build directory — the response is that file with exactly the
header `Cache-Control: max-age=31536000, immutable`. -/
theorem c1_asset_immutable_header (files : DistFiles) (req : Request)
    (hm : req.method = getMethod ∨ req.method = headMethod)
    (bytes : Bytes) (hres : resolveFile files req.path = some bytes)
    (hne : relFileName req.path ≠ entryDocument) :
    expressStatic files req =
      some { headers := [(cacheControlName, immutableCacheControl)],
             status := 200, body := bytes, sendError := none } ∧
    (handleRequest files req).headers =
      [(cacheControlName, immutableCacheControl)] ∧
    immutableCacheControl = "max-age=31536000, immutable" := by
  have he : expressStatic files req =
      some { headers := [(cacheControlName, immutableCacheControl)],
             status := 200, body := bytes, sendError := none } := by
    unfold expressStatic
    rw [if_pos hm, hres]
  refine ⟨he, ?_, rfl⟩
  unfold handleRequest
  rw [he]

/-- Witness for C1: GET `/app.js` against the demo build directory is
served by the asset handler with the immutable cache header. -/
theorem c1_witness :
    (reqGetAsset.method = getMethod ∨ reqGetAsset.method = headMethod) ∧
    expressStatic demoFiles reqGetAsset =
      some { headers := [(cacheControlName, immutableCacheControl)],
             status := 200, body := [1, 2], sendError := none } :=
  ⟨Or.inl rfl,
   (c1_asset_immutable_header demoFiles reqGetAsset (Or.inl rfl) [1, 2]
     (by decide) (by decide)).1⟩

/-- Counterexample for C2: the path `/index.html` resolves only to the
entry document — so it does not resolve to an existing non-entry-document
file — yet the response to GET `/index.html` carries the immutable asset
header, not the three no-cache headers the claim requires. -/
theorem c2_counterexample :
    resolveFile demoFiles reqGetEntry.path = some [10, 11] ∧
    relFileName reqGetEntry.path = entryDocument ∧
    (handleRequest demoFiles reqGetEntry).headers =
      [(cacheControlName, immutableCacheControl)] ∧
    (handleRequest demoFiles reqGetEntry).headers ≠ noCacheHeaders := by
  decide

/-- C2 as amended: for every request whose path does not resolve to any
existing file under the build directory (root `/` and SPA routes included),
provided the entry document exists, the response body is the entry
document and the response carries the three no-cache headers. -/
theorem c2_fallback_nocache (files : DistFiles) (req : Request) (e : Bytes)
    (hentry : lookupFile files entryDocument = some e)
    (hres : resolveFile files req.path = none) :
    handleRequest files req =
      { headers := noCacheHeaders, status := 200, body := e,
        sendError := none } := by
  have hstat := expressStatic_none_of_unresolved files req hres
  unfold handleRequest
  rw [hstat, spaFallbackHandler_eq]
  unfold sendFile
  rw [hentry]

/-- Witness for C2 as amended: GET `/dashboard` against the demo build
directory yields the entry document bytes with the no-cache headers. -/
theorem c2_witness :
    lookupFile demoFiles entryDocument = some [10, 11] ∧
    resolveFile demoFiles reqGetDashboard.path = none ∧
    handleRequest demoFiles reqGetDashboard =
      { headers := noCacheHeaders, status := 200, body := [10, 11],
        sendError := none } :=
  ⟨by decide, by decide,
   c2_fallback_nocache demoFiles reqGetDashboard [10, 11] (by decide)
     (by decide)⟩

/-- Counterexample for C3: an explicit GET for `/index.html` is resolved
by the static asset handler to the entry document and served with the
one-year immutable cache header. -/
theorem c3_counterexample :
    lookupFile demoFiles entryDocument = some [10, 11] ∧
    expressStatic demoFiles reqGetEntry =
      some { headers := [(cacheControlName, immutableCacheControl)],
             status := 200, body := [10, 11], sendError := none } := by
  decide

/-- C3 as amended: the asset handler excludes the entry document only from
automatic (directory-index) resolution: a directory request — any path
ending in a slash, in particular the root `/` — is never resolved by the
asset handler, even when the entry document exists. -/
theorem c3_no_auto_index (files : DistFiles) (req : Request)
    (hdir : isDirRequest req.path = true) :
    expressStatic files req = none := by
  unfold expressStatic resolveFile
  simp [hdir]

/-- Witness for C3 as amended: GET `/` against the demo build directory —
whose entry document exists — is not resolved by the asset handler. -/
theorem c3_witness :
    isDirRequest reqGetRoot.path = true ∧
    lookupFile demoFiles entryDocument = some [10, 11] ∧
    expressStatic demoFiles reqGetRoot = none :=
  ⟨by decide, by decide, c3_no_auto_index demoFiles reqGetRoot (by decide)⟩

/-- C4: when the resolved build directory is missing, `serveStatic` throws
the error message naming that directory and installs nothing; when it
exists, no error is thrown and the two handlers are installed. -/
theorem c4_startup_check (dirname : String) (existsSync : String → Bool)
    (app : List Handler) :
    (existsSync (pathResolve dirname publicSegment) = false →
      serveStatic dirname existsSync app =
        .error (buildDirErrorMsg (pathResolve dirname publicSegment)) ∧
      ∃ pre post, buildDirErrorMsg (pathResolve dirname publicSegment) =
        pre ++ pathResolve dirname publicSegment ++ post) ∧
    (existsSync (pathResolve dirname publicSegment) = true →
      serveStatic dirname existsSync app =
        .ok (app ++ installedHandlers dirname)) := by
  constructor
  · intro h
    exact ⟨by simp [serveStatic, h], buildDirMsgPre, buildDirMsgPost, rfl⟩
  · intro h
    simp [serveStatic, h, installedHandlers]

/-- Witness for C4: with a missing directory `serveStatic` throws the
message naming `/srv/public`; with an existing one it installs the two
handlers. -/
theorem c4_witness :
    serveStatic srvDirname neverExists [] =
      .error (buildDirErrorMsg (pathResolve srvDirname publicSegment)) ∧
    serveStatic srvDirname alwaysExists [] =
      .ok ([] ++ installedHandlers srvDirname) :=
  ⟨((c4_startup_check srvDirname neverExists []).1 rfl).1,
   (c4_startup_check srvDirname alwaysExists []).2 rfl⟩

/-- C5: `serveStatic` installs the asset handler before the fallback; the
catch-all pattern matches every rooted path (the root included); running
the two installed handlers agrees with `handleRequest`, which answers with
the asset handler whenever it resolves the request and with the fallback
exactly otherwise. -/
theorem c5_ordering (dirname : String) (existsSync : String → Bool)
    (app : List Handler) (files : DistFiles) (req : Request)
    (hex : existsSync (pathResolve dirname publicSegment) = true)
    (hp : isRootedPath req.path = true) :
    serveStatic dirname existsSync app =
      .ok (app ++ installedHandlers dirname) ∧
    routeMatches catchAllPattern req.path = true ∧
    runApp files (installedHandlers dirname) req =
      some (handleRequest files req) ∧
    (∀ r, expressStatic files req = some r → handleRequest files req = r) ∧
    (expressStatic files req = none →
      handleRequest files req = spaFallbackHandler files req) := by
  refine ⟨by simp [serveStatic, hex, installedHandlers], ?_, ?_, ?_, ?_⟩
  · simp [routeMatches, hp]
  · cases hs : expressStatic files req with
    | none =>
        simp [installedHandlers, runApp, runHandler, hs, routeMatches, hp,
          handleRequest]
    | some r =>
        simp [installedHandlers, runApp, runHandler, hs, handleRequest]
  · intro r hr
    unfold handleRequest
    rw [hr]
  · intro h0
    unfold handleRequest
    rw [h0]

/-- Witness for C5: the concrete installation on `/srv` together with the
concrete request GET `/dashboard` against the demo build directory. -/
theorem c5_witness :
    serveStatic srvDirname alwaysExists [] =
      .ok ([] ++ installedHandlers srvDirname) ∧
    routeMatches catchAllPattern reqGetDashboard.path = true ∧
    runApp demoFiles (installedHandlers srvDirname) reqGetDashboard =
      some (handleRequest demoFiles reqGetDashboard) ∧
    (∀ r, expressStatic demoFiles reqGetDashboard = some r →
      handleRequest demoFiles reqGetDashboard = r) ∧
    (expressStatic demoFiles reqGetDashboard = none →
      handleRequest demoFiles reqGetDashboard =
        spaFallbackHandler demoFiles reqGetDashboard) :=
  c5_ordering srvDirname alwaysExists [] demoFiles reqGetDashboard rfl
    (by decide)

/-- Counterexample for C6: invoked on module directory `/srv` — the only
path it is given — `serveStatic` installs handlers that serve from the
internally derived `/srv/public`, not from a supplied build directory
path. -/
theorem c6_counterexample :
    serveStatic srvDirname alwaysExists [] =
      .ok ([] ++ installedHandlers srvDirname) ∧
    Handler.servedDir (Handler.staticAssets
      (pathResolve srvDirname publicSegment)) ≠ srvDirname ∧
    pathResolve srvDirname publicSegment ≠ srvDirname :=
  ⟨rfl, by decide, by decide⟩

/-- C6 as amended: `serveStatic` is not handed the build directory as an
argument; at installation it derives the path as `__dirname` joined with
`public`, fixed from then on, and both installed handlers serve from that
same derived path. -/
theorem c6_derived_dist_path (dirname : String) (existsSync : String → Bool)
    (app : List Handler)
    (hex : existsSync (pathResolve dirname publicSegment) = true) :
    serveStatic dirname existsSync app =
      .ok (app ++ installedHandlers dirname) ∧
    ∀ h ∈ installedHandlers dirname,
      Handler.servedDir h = pathResolve dirname publicSegment := by
  refine ⟨by simp [serveStatic, hex, installedHandlers], ?_⟩
  intro h hh
  simp only [installedHandlers, List.mem_cons, List.mem_singleton,
    List.not_mem_nil, or_false] at hh
  rcases hh with rfl | rfl <;> rfl

/-- Witness for C6 as amended: the concrete installation on `/srv`. -/
theorem c6_witness :
    serveStatic srvDirname alwaysExists [] =
      .ok ([] ++ installedHandlers srvDirname) ∧
    ∀ h ∈ installedHandlers srvDirname,
      Handler.servedDir h = pathResolve srvDirname publicSegment :=
  c6_derived_dist_path srvDirname alwaysExists [] rfl

/-- C7: a missing entry document is not detected at startup — the check
looks only at the directory, so installation succeeds — and a request the
asset handler does not resolve ends in the file-not-found failure of
`res.sendFile`, the middleware adding no recovery of its own. -/
theorem c7_missing_entry (dirname : String) (existsSync : String → Bool)
    (app : List Handler) (files : DistFiles) (req : Request)
    (hex : existsSync (pathResolve dirname publicSegment) = true)
    (hentry : lookupFile files entryDocument = none)
    (hres : resolveFile files req.path = none) :
    serveStatic dirname existsSync app =
      .ok (app ++ installedHandlers dirname) ∧
    handleRequest files req =
      { headers := noCacheHeaders, status := 404, body := [],
        sendError := some (enoentPrefix ++ entryDocument) } := by
  refine ⟨by simp [serveStatic, hex, installedHandlers], ?_⟩
  have hstat := expressStatic_none_of_unresolved files req hres
  unfold handleRequest
  rw [hstat, spaFallbackHandler_eq]
  unfold sendFile
  rw [hentry]

/-- Witness for C7: installation on `/srv` succeeds although the demo
directory without entry document lacks `index.html`, and GET `/nope`
surfaces the file-not-found failure. -/
theorem c7_witness :
    serveStatic srvDirname alwaysExists [] =
      .ok ([] ++ installedHandlers srvDirname) ∧
    handleRequest noEntryFiles reqGetMissing =
      { headers := noCacheHeaders, status := 404, body := [],
        sendError := some (enoentPrefix ++ entryDocument) } :=
  c7_missing_entry srvDirname alwaysExists [] noEntryFiles reqGetMissing
    rfl (by decide) (by decide)

/-- Counterexample for C8: two requests with the same path but different
methods — GET and POST for `/app.js` — receive different responses, so
sameness of path alone does not determine the response. -/
theorem c8_counterexample :
    reqGetAsset.path = reqPostAsset.path ∧
    handleRequest demoFiles reqGetAsset ≠
      handleRequest demoFiles reqPostAsset := by
  decide

/-- C8 as amended: handling is stateless and deterministic in the path and
method: two requests with the same path and the same method — whatever
their request headers or bodies — receive identical responses against the
same build directory, and in a batch every response depends only on the
corresponding request. -/
theorem c8_stateless_deterministic (files : DistFiles) (r1 r2 : Request)
    (hp : r1.path = r2.path) (hm : r1.method = r2.method) :
    handleRequest files r1 = handleRequest files r2 ∧
    ∀ (reqs : List Request) (i : Nat),
      (handleAll files reqs)[i]? = (reqs[i]?).map (handleRequest files) := by
  constructor
  · have hs : expressStatic files r1 = expressStatic files r2 := by
      unfold expressStatic
      rw [hp, hm]
    unfold handleRequest
    rw [hs]
    cases expressStatic files r2 <;> rfl
  · intro reqs i
    simp [handleAll]

/-- Witness for C8 as amended: the two GET `/dashboard` requests differing
in request headers and body receive identical responses, and the second
response of a two-request batch is the independent handling of the second
request. -/
theorem c8_witness :
    handleRequest demoFiles reqGetDashboard =
      handleRequest demoFiles reqGetDashboardAlt ∧
    (handleAll demoFiles [reqGetDashboard, reqGetDashboardAlt])[1]? =
      some (handleRequest demoFiles reqGetDashboardAlt) :=
  ⟨(c8_stateless_deterministic demoFiles reqGetDashboard reqGetDashboardAlt
      rfl rfl).1,
   by
    rw [(c8_stateless_deterministic demoFiles reqGetDashboard
      reqGetDashboardAlt rfl rfl).2 [reqGetDashboard, reqGetDashboardAlt] 1]
    rfl⟩

/-- C9: the fallback response always carries exactly the three no-cache
headers, set before the entry document is read; in particular they are
still present when reading the entry document fails. -/
theorem c9_headers_always_set (files : DistFiles) (req : Request) :
    (spaFallbackHandler files req).headers = noCacheHeaders ∧
    (lookupFile files entryDocument = none →
      (spaFallbackHandler files req).sendError =
        some (enoentPrefix ++ entryDocument) ∧
      (spaFallbackHandler files req).headers = noCacheHeaders) := by
  rw [spaFallbackHandler_eq]
  unfold sendFile
  cases hl : lookupFile files entryDocument <;> simp [hl]

/-- Witness for C9: against the build directory lacking `index.html`, the
fallback response still carries the three no-cache headers while the read
fails. -/
theorem c9_witness :
    (spaFallbackHandler noEntryFiles reqGetMissing).headers =
      noCacheHeaders ∧
    (spaFallbackHandler noEntryFiles reqGetMissing).sendError =
      some (enoentPrefix ++ entryDocument) :=
  ⟨(c9_headers_always_set noEntryFiles reqGetMissing).1,
   ((c9_headers_always_set noEntryFiles reqGetMissing).2 (by decide)).1⟩

/-- C10: a request whose method is neither GET nor HEAD is not served by
the asset handler even when its path resolves to an existing asset file;
it falls through to the fallback and receives the entry document with the
no-cache headers. -/
theorem c10_non_get_head (files : DistFiles) (req : Request) (e b : Bytes)
    (hm1 : req.method ≠ getMethod) (hm2 : req.method ≠ headMethod)
    (hres : resolveFile files req.path = some b)
    (hentry : lookupFile files entryDocument = some e) :
    expressStatic files req = none ∧
    handleRequest files req =
      { headers := noCacheHeaders, status := 200, body := e,
        sendError := none } := by
  have hs : expressStatic files req = none := by
    unfold expressStatic
    rw [if_neg (fun h => h.elim hm1 hm2)]
  refine ⟨hs, ?_⟩
  unfold handleRequest
  rw [hs, spaFallbackHandler_eq]
  unfold sendFile
  rw [hentry]

/-- Witness for C10: POST `/app.js` against the demo build directory —
whose path does resolve to the asset — is answered by the fallback with the
entry document and the no-cache headers. -/
theorem c10_witness :
    expressStatic demoFiles reqPostAsset = none ∧
    handleRequest demoFiles reqPostAsset =
      { headers := noCacheHeaders, status := 200, body := [10, 11],
        sendError := none } :=
  c10_non_get_head demoFiles reqPostAsset [10, 11] [1, 2] (by decide)
    (by decide) (by decide) (by decide)

end SpaCacheFix
